import Mathlib

/-!
A shallow embedding of the FAAS record-to-spreadsheet valuation and mapping
engine (`src/backend/python/excel_generator.py`), together with theorems
settling the specification claims about it.

Numbers are modelled as rationals (`ℚ`): the Python code computes with
floats, but every claim under study concerns the exact arithmetic
(`round(x / m) * m` with round-half-to-even on the quotient, products,
percentages), so the rational semantics is the faithful idealisation.
Strings are modelled as Lean `String`s; Python's `.upper()`, `.lower()`,
`.strip()` and `str.split` are modelled character-wise, which agrees with
Python on the ASCII data the repository feeds them.

Record fields are modelled after they have passed through the generator's
`safe_float` / `safe_int` coercions (which map `None`, `''` and unparsable
text to `0`): a field that carries a number ends up as a `ℚ` (or `ℤ`), and
the only truthiness tests the mapped code performs on such fields are
"`≠ 0`", which is exactly Python's truthiness for `float`/`int`.  The one
place a raw-value distinction matters (the `unit_value_improvement`
fallback, which is guarded by the truthiness of the *raw* field) is
modelled with an `Option ℚ`: `none` is a falsy raw value, `some q` a truthy
raw value whose `safe_float` image is `q`.
-/

/- `Rat.add`/`sub`/`mul`/`inv` are `@[irreducible]` in Batteries, which
blocks kernel evaluation of concrete rational arithmetic by `decide`; the
concrete witnesses below need that evaluation. -/
attribute [local semireducible] Rat.add Rat.sub Rat.mul Rat.inv

namespace FAAS

/-- A Python value as it can occur in a generator `cell_mapping`: a string,
a number, or `None`. -/
inductive PyVal where
  | str (s : String)
  | num (q : ℚ)
  | pynone
  deriving DecidableEq, Repr

/-- Python's built-in `round` on an exact rational: round half to even
(banker's rounding), as CPython does on its numeric types. -/
def pyRound (q : ℚ) : ℤ :=
  let f := q.floor
  let r := q - (f : ℚ)
  if r < 1/2 then f
  else if 1/2 < r then f + 1
  else if f % 2 = 0 then f else f + 1

/-- `FAASExcelGenerator.mround` (excel_generator.py:82-85):
`if not number or not multiple: return 0; return round(number / multiple) * multiple`. -/
def mround (number multiple : ℚ) : ℚ :=
  if number = 0 ∨ multiple = 0 then 0
  else (pyRound (number / multiple) : ℚ) * multiple

/-- Python `str.upper()` (character-wise; the source only feeds it ASCII). -/
def strUpper (s : String) : String := ⟨s.data.map Char.toUpper⟩

/-- Python `str.lower()` (character-wise; the source only feeds it ASCII). -/
def strLower (s : String) : String := ⟨s.data.map Char.toLower⟩

/-- Python `str.strip()` with no argument: drop leading and trailing
whitespace. -/
def strTrim (s : String) : String :=
  ⟨((s.data.dropWhile Char.isWhitespace).reverse.dropWhile Char.isWhitespace).reverse⟩

/-- Python `dict.get(key)` on a string-keyed literal dict, as an
association-list lookup (keys in the source dicts are distinct). -/
def dictGet : List (String × ℚ) → String → Option ℚ
  | [], _ => none
  | (k, v) :: rest, key => if k = key then some v else dictGet rest key

/-- The `COMMERCIAL` sub-class table (excel_generator.py:59). -/
def commercialTable : List (String × ℚ) :=
  [("C-1", 1400), ("C-2", 1030), ("C-3", 850), ("C-4", 720)]

/-- The `RESIDENTIAL` sub-class table (excel_generator.py:61). -/
def residentialTable : List (String × ℚ) :=
  [("R-1", 760), ("R-2", 610), ("R-3", 470), ("R-4", 280), ("R-5", 200)]

/-- The `COCAL` sub-class table (excel_generator.py:63). -/
def cocalTable : List (String × ℚ) := [("1", 93830), ("2", 84500), ("3", 76130)]

/-- The `IRRIGATED` sub-class table (excel_generator.py:65). -/
def irrigatedTable : List (String × ℚ) := [("1", 188760), ("2", 174390), ("3", 126950)]

/-- The `UNIRRIGATED` sub-class table (excel_generator.py:67). -/
def unirrigatedTable : List (String × ℚ) := [("1", 82450), ("2", 75070), ("3", 52590)]

/-- `FAASExcelGenerator.calculate_land_unit_value` (excel_generator.py:53-80).
A falsy (absent/empty) classification yields `None`; otherwise the
classification and sub-class are upper-cased and stripped and looked up. -/
def calculate_land_unit_value (classification sub_class : String) : Option ℚ :=
  if classification = "" then none
  else
    let cls := strTrim (strUpper classification)
    let sub := if sub_class = "" then "" else strTrim (strUpper sub_class)
    if cls = "COMMERCIAL" then dictGet commercialTable sub
    else if cls = "RESIDENTIAL" then dictGet residentialTable sub
    else if cls = "COCAL" then dictGet cocalTable sub
    else if cls = "IRRIGATED" then dictGet irrigatedTable sub
    else if cls = "UNIRRIGATED" then dictGet unirrigatedTable sub
    else if cls = "UPLAND" then some 28540
    else if cls = "ORCHARD" then some 44100
    else if cls = "COGON LAND" then some 46460
    else if cls = "NIPA LAND" then some 55070
    else if cls = "FOREST LAND" then some 59660
    else if cls = "FISHPOND" then some 218240
    else none

/-- The improvement (tree/crop) unit-value table (excel_generator.py:91-99). -/
def improvementTable : List (String × ℚ) :=
  [("COCO BRG.-1", 480), ("COCO BRG.-2", 420), ("COCO BRG.-3", 330),
   ("AVOCADO", 310), ("BANANA", 200), ("CACAO", 300), ("CALAMANSI", 360),
   ("CAMANSI", 420), ("CHICO", 630), ("COFFEE", 250), ("JACKFRUIT", 840),
   ("LANZONES", 460), ("MABOLO", 350), ("MANGO", 1750), ("ORANGE", 460),
   ("RAMBUTAN", 360), ("SANTOL", 620), ("SINEGUELAS", 310),
   ("STAR APPLE", 790), ("TAMARIND", 350), ("BAMBOO", 460),
   ("BURI", 410), ("NIPA", 240)]

/-- `FAASExcelGenerator.calculate_improvement_unit_value`
(excel_generator.py:87-100). -/
def calculate_improvement_unit_value (product_class : String) : Option ℚ :=
  if product_class = "" then none
  else dictGet improvementTable (strTrim (strUpper product_class))

/-- One entry of the record's `land_appraisals_json` list, with `area`
already passed through `safe_float` (absent/empty/unparsable ⇒ 0). -/
structure LandItem where
  classification : String
  sub_class : String
  area : ℚ
  deriving DecidableEq, Repr

/-- One entry of `improvements_json`: `improvement_qty` is the `safe_int`
image of the raw field; `unit_value_improvement` is `none` when the raw
field is falsy and `some q` when it is truthy with `safe_float` image `q`. -/
structure ImprItem where
  product_class : String
  improvement_qty : ℤ
  unit_value_improvement : Option ℚ
  deriving DecidableEq, Repr

/-- One entry of `market_values_json`, with `percent_adjustment` already
passed through `safe_float`. -/
structure MVItem where
  adj_factor : String
  percent_adjustment : ℚ
  deriving DecidableEq, Repr

/-- What the Form A land loop (excel_generator.py:211-227) stores in the
market-value cell `G(22+i)` for one land entry: present iff the looked-up
unit value is truthy and `area > 0`, and then `mround(area * unit_value, 10)`. -/
def formA_landG (it : LandItem) : Option ℚ :=
  match calculate_land_unit_value it.classification it.sub_class with
  | none => none
  | some uv => if uv ≠ 0 ∧ it.area > 0 then some (mround (it.area * uv) 10) else none

/-- The improvement unit value after the fallback (excel_generator.py:238-240):
the table value, or — only when the table lookup is `None` and the raw
`unit_value_improvement` field is truthy — the raw field's `safe_float` image. -/
def formA_imprUV (it : ImprItem) : Option ℚ :=
  match calculate_improvement_unit_value it.product_class with
  | some v => some v
  | none => it.unit_value_improvement

/-- What the Form A improvement loop (excel_generator.py:229-244) stores in
the market-value cell `G(29+i)`: present iff the effective unit value is
truthy and `qty > 0`, and then the *unrounded* product `qty * unit_value`. -/
def formA_imprG (it : ImprItem) : Option ℚ :=
  match formA_imprUV it with
  | none => none
  | some v => if v ≠ 0 ∧ it.improvement_qty > 0 then some ((it.improvement_qty : ℚ) * v) else none

/-- Builds the `(row, value)` association list of the `G`-column cells a
loop writes: starting at `row`, one optional cell per consumed item. -/
def gRows (f : α → Option ℚ) : Nat → List α → List (Nat × ℚ)
  | _, [] => []
  | row, a :: rest =>
      match f a with
      | some g => (row, g) :: gRows f (row + 1) rest
      | none => gRows f (row + 1) rest

/-- `cell_mapping.get(key, 0)` over the row-keyed `G`-column cells. -/
def rowGet : List (Nat × ℚ) → Nat → Option ℚ
  | [], _ => none
  | (r, v) :: rest, row => if r = row then some v else rowGet rest row

/-- The `mv_sources` collection loop (excel_generator.py:246-255): for each
consumed index, read `cell_mapping.get(G-row, 0)` and keep it if truthy. -/
def formA_mv_read (assoc : List (Nat × ℚ)) (rows : List Nat) : List ℚ :=
  rows.filterMap (fun r =>
    let mv := (rowGet assoc r).getD 0
    if mv ≠ 0 then some mv else none)

/-- `mv_sources` (excel_generator.py:246-255): land `G22..G25` cells first,
then improvement `G29..G32` cells, each loop consuming at most 4 entries. -/
def formA_mv_sources (land : List LandItem) (impr : List ImprItem) : List ℚ :=
  formA_mv_read (gRows formA_landG 22 (land.take 4))
      ((List.range (min 4 land.length)).map (fun i => 22 + i))
    ++ formA_mv_read (gRows formA_imprG 29 (impr.take 4))
      ((List.range (min 4 impr.length)).map (fun i => 29 + i))

/-- The consolidated base market-value sequence Form A consumes:
`mv_sources[:4]` (excel_generator.py:257). -/
def formA_consol (land : List LandItem) (impr : List ImprItem) : List ℚ :=
  (formA_mv_sources land impr).take 4

/-- A value stored into a market-value `G` cell of the Form A mapping:
either a number, or the empty-string marker `''` (which the write loop
at excel_generator.py:291-295 later skips, leaving the cell unwritten). -/
inductive CellOut where
  | val (q : ℚ)
  | empty
  deriving DecidableEq, Repr

/-- What the Form A consolidation loop stores in the adjusted-value cell
`G(36+i)` for a slot with base value `mv` and percent adjustment `pct`
(excel_generator.py:265-270): with a truthy `pct`,
`calc_g = mround(mv * (pct/100), 10)` and the cell gets `calc_g` when it is
nonzero and `''` otherwise; with a falsy `pct` the cell gets `mv`. -/
def formA_slotG (mv pct : ℚ) : CellOut :=
  if pct ≠ 0 then
    if mround (mv * (pct / 100)) 10 ≠ 0 then CellOut.val (mround (mv * (pct / 100)) 10)
    else CellOut.empty
  else CellOut.val mv

/-- The full `G(36+i)` mapping entry: `none` when slot `i` has no
consolidated base value (the row is never assigned); otherwise the
`formA_slotG` result against the `i`-th market-value adjustment
(`{}` when the list is shorter, whose `percent_adjustment` reads as 0). -/
def formA_adjusted_cell (land : List LandItem) (impr : List ImprItem)
    (mvs : List MVItem) (i : Nat) : Option CellOut :=
  match (formA_consol land impr).get? i with
  | none => none
  | some mv =>
      let pct := ((mvs.get? i).map MVItem.percent_adjustment).getD 0
      some (formA_slotG mv pct)

/-- The three per-slot outputs of the Form A consolidation loop
(excel_generator.py:257-270): the `C` cell (adjustment factor, written when
truthy), the `D` cell (`pct/100`, written when `pct` is truthy), and the
`G` cell (`formA_slotG`). -/
structure SlotOut where
  c : Option String
  d : Option ℚ
  g : CellOut
  deriving DecidableEq, Repr

/-- The per-slot outputs for base value `mv` against an optional
`MarketValueAdjustment` entry (`none` models `market_values[i]`
defaulting to `{}`). -/
def formA_slotOut (mv : ℚ) (item : Option MVItem) : SlotOut :=
  let af := (item.map MVItem.adj_factor).getD ""
  let pct := (item.map MVItem.percent_adjustment).getD 0
  { c := if af ≠ "" then some af else none
    d := if pct ≠ 0 then some (pct / 100) else none
    g := formA_slotG mv pct }

/-- The Form A write-loop guard (excel_generator.py:291-295): a value is
passed to `safe_write_cell` iff `value != ''` and not
(`isinstance(value, str) and value.lower() == 'none'`).  Note that a
Python `None` value passes both tests. -/
def formA_write_filter (v : PyVal) : Bool :=
  match v with
  | .str s => decide (s ≠ "") && decide (strLower s ≠ "none")
  | .num _ => true
  | .pynone => true

/-- The Form B (UNIRRIG) Sheet-1 write-loop guard (excel_generator.py:382-384):
a value is written iff `value != ''` and `value is not None`.  Note that the
literal string `"None"` passes both tests. -/
def formB_write_filter (v : PyVal) : Bool :=
  match v with
  | .str s => decide (s ≠ "")
  | .num _ => true
  | .pynone => false

/-- The Form A mapping entry for cell `H65`,
`safe_float(record.get('previous_av_land'), default=None)`
(excel_generator.py:204): the DB column is numeric, so the raw field is
either absent (`NULL`) or a number, and `safe_float` with default `None`
yields Python `None` or the number itself. -/
def formA_H65_cell (previous_av_land : Option ℚ) : PyVal :=
  match previous_av_land with
  | none => PyVal.pynone
  | some q => PyVal.num q

/-- One base market value of the Form B land pass
(excel_generator.py:410-417): `unit_val = lookup or 0`;
`mv = mround(area * unit_val, 10) if area and unit_val else 0`. -/
def formB_landMV (it : LandItem) : ℚ :=
  let uv := (calculate_land_unit_value it.classification it.sub_class).getD 0
  if it.area ≠ 0 ∧ uv ≠ 0 then mround (it.area * uv) 10 else 0

/-- One base market value of the Form B improvement pass
(excel_generator.py:419-427): same unit-value fallback as Form A, then
`u_val_safe = u_val or 0` and
`mv = mround(qty * u_val_safe, 10) if qty and u_val_safe else 0`. -/
def formB_imprMV (it : ImprItem) : ℚ :=
  let uv := (formA_imprUV it).getD 0
  if it.improvement_qty ≠ 0 ∧ uv ≠ 0 then mround ((it.improvement_qty : ℚ) * uv) 10 else 0

/-- `base_mvs` (excel_generator.py:410-427): the truthy land market values
of *all* land entries, then the truthy improvement market values of *all*
improvement entries, in order. -/
def formB_base_mvs (land : List LandItem) (impr : List ImprItem) : List ℚ :=
  ((land.map formB_landMV).filter (fun q => q ≠ 0))
    ++ ((impr.map formB_imprMV).filter (fun q => q ≠ 0))

/-- The part of `base_mvs` the Form B adjustment loop consumes
(`range(min(4, len(base_mvs)))`, excel_generator.py:442). -/
def formB_consol (land : List LandItem) (impr : List ImprItem) : List ℚ :=
  (formB_base_mvs land impr).take 4

/-- One adjusted market value of Form B (excel_generator.py:441-450): with
a truthy `pct`, `calc_g = mround(mv * (pct/100), 10)` and the slot takes
`calc_g` when nonzero, *falling back to `mv`* otherwise; with a falsy
`pct` the slot takes `mv`. -/
def formB_adjusted_slot (mv pct : ℚ) : ℚ :=
  if pct ≠ 0 then
    if mround (mv * (pct / 100)) 10 ≠ 0 then mround (mv * (pct / 100)) 10 else mv
  else mv

/-- The Form B `G50` write (excel_generator.py:363-367): written only when
the market-value list is nonempty and its first entry's
`percent_adjustment` is truthy, and then carries `pct/100`. -/
def formB_G50_write (mvs : List MVItem) : Option ℚ :=
  match mvs with
  | [] => none
  | m :: _ => if m.percent_adjustment ≠ 0 then some (m.percent_adjustment / 100) else none

/-- Python `str.split` with a one-character separator. -/
def splitOnChar (c : Char) : List Char → List (List Char)
  | [] => [[]]
  | x :: rest =>
      match splitOnChar c rest with
      | [] => []
      | h :: t => if x = c then [] :: h :: t else (x :: h) :: t

/-- The PIN-derived writes of the Form B pass (excel_generator.py:387-391):
`pin.split('-')`; only when at least 5 parts exist, `K20` receives part
index 3 and `K19` part index 4; otherwise nothing is written. -/
def unirrig_pin_writes (pin : String) : List (String × String) :=
  let parts := splitOnChar '-' pin.data
  if h : 5 ≤ parts.length then
    [("K20", ⟨parts[3]⟩), ("K19", ⟨parts[4]⟩)]
  else []

/-- A merged range of an openpyxl worksheet, by its bounds. -/
structure MergedRange where
  min_row : Nat
  min_col : Nat
  max_row : Nat
  max_col : Nat
  deriving DecidableEq, Repr

/-- `coord in merged_range`: the coordinate lies within the bounds. -/
def MergedRange.containsCell (mr : MergedRange) (p : Nat × Nat) : Bool :=
  decide (mr.min_row ≤ p.1) && decide (p.1 ≤ mr.max_row)
    && decide (mr.min_col ≤ p.2) && decide (p.2 ≤ mr.max_col)

/-- An in-memory worksheet: a total assignment of values to (row, column)
coordinates plus the list of merged ranges. -/
structure Sheet (V : Type) where
  cells : Nat × Nat → V
  merged : List MergedRange

/-- `sheet.cell(row=r, column=c).value = v`. -/
def setCell (s : Sheet V) (r c : Nat) (v : V) : Sheet V :=
  { s with cells := fun p => if p = (r, c) then v else s.cells p }

/-- `FAASExcelGenerator.safe_write_cell` (excel_generator.py:150-161): scan
the merged ranges; on the first range containing the coordinate, write the
range's `(min_row, min_col)` anchor cell and stop; otherwise write the
coordinate itself. -/
def safe_write_cell (s : Sheet V) (coord : Nat × Nat) (v : V) : Sheet V :=
  match s.merged.find? (fun mr => mr.containsCell coord) with
  | some mr => setCell s mr.min_row mr.min_col v
  | none => setCell s coord.1 coord.2 v

/-- The JSON object printed by `main` in `--type both` mode
(excel_generator.py:563-576), as a function of the two generators'
`(result, error)` outcomes (`result` is `None` exactly on failure). -/
structure BothOutput (α β : Type) where
  success : Bool
  both_success : Bool
  faas : Option α
  unirrig : Option β
  faas_error : Option String
  unirrig_error : Option String

/-- Builds the `both`-mode output object (excel_generator.py:567-575). -/
def buildBoth (fr : Option α) (fe : Option String) (ur : Option β) (ue : Option String) :
    BothOutput α β :=
  { success := fr.isSome
    both_success := fr.isSome && ur.isSome
    faas := fr
    unirrig := ur
    faas_error := if fr.isSome then none else fe
    unirrig_error := if ur.isSome then none else ue }

/-- The process exit code of `both` mode:
`sys.exit(0 if is_faas_success else 1)` (excel_generator.py:577). -/
def bothExitCode (fr : Option α) : Nat :=
  if fr.isSome then 0 else 1

/-- The character blacklist of `clean_filename` (excel_generator.py:105-106):
space and dot first, then the punctuation list, all replaced by `'_'`.
(The four characters written via `Char.ofNat` are `\`, `"`, `'` and
the backquote.) -/
def clean_filename_blacklist : List Char :=
  [' ', '.',
   Char.ofNat 92, '/', ':', '*', '?', Char.ofNat 34, '<', '>', '|',
   '(', ')', '[', ']', Char.ofNat 123, Char.ofNat 125, ',', ';',
   Char.ofNat 39, Char.ofNat 96, '@', '#', '$', '%', '^', '&', '+', '=', '!', '~']

/-- Python `str.replace(c, '_')` for a single character `c`. -/
def replaceAllChar (c : Char) (s : List Char) : List Char :=
  s.map (fun x => if x = c then '_' else x)

/-- The sequential single-character replacements of `clean_filename`
(excel_generator.py:105-108). -/
def applyBlacklist (s : List Char) : List Char :=
  clean_filename_blacklist.foldl (fun acc c => replaceAllChar c acc) s

/-- `'__' in filename`: some two adjacent characters are both underscores. -/
def hasDouble : List Char → Bool
  | [] => false
  | [_] => false
  | c :: d :: rest => (decide (c = '_') && decide (d = '_')) || hasDouble (d :: rest)

/-- One pass of Python `str.replace('__', '_')`: non-overlapping
replacement, scanning left to right. -/
def replaceDoubles : List Char → List Char
  | [] => []
  | [c] => [c]
  | c :: d :: rest =>
      if c = '_' ∧ d = '_' then '_' :: replaceDoubles rest
      else c :: replaceDoubles (d :: rest)

/-- The `while '__' in filename:` loop of `clean_filename`
(excel_generator.py:109-110), run with enough fuel: each pass that finds a
double shortens the list, so `s.length` passes always reach the fixpoint. -/
def collapseGo : Nat → List Char → List Char
  | 0, s => s
  | n + 1, s => if hasDouble s then collapseGo n (replaceDoubles s) else s

/-- The fixpoint of `replace('__', '_')`: every run of underscores
collapsed to a single one. -/
def collapseUnderscores (s : List Char) : List Char :=
  collapseGo s.length s

/-- Python `str.strip('_')`: drop leading and trailing underscores. -/
def stripUnderscores (s : List Char) : List Char :=
  ((s.dropWhile (fun c => c = '_')).reverse.dropWhile (fun c => c = '_')).reverse

/-- The characters `clean_filename` never deletes: everything except the
underscore (used to state that sanitisation preserves real content). -/
def nonUnderscore (c : Char) : Bool := decide (c ≠ '_')

/-- `FAASExcelGenerator.clean_filename` (excel_generator.py:102-111):
`"Unknown"` for a falsy input, otherwise replace blacklisted characters by
underscores, collapse double underscores, and strip outer underscores. -/
def clean_filename (s : String) : String :=
  if s = "" then "Unknown"
  else ⟨stripUnderscores (collapseUnderscores (applyBlacklist s.data))⟩

/-- The concrete worksheet used for the C3 analysis: every cell holds 0 and
rows 1-2 × columns 1-2 form one merged range. -/
def c3Sheet : Sheet ℕ := ⟨fun _ => 0, [⟨1, 1, 2, 2⟩]⟩
end FAAS

namespace FAAS

/-- C8: `mround(x, 10)` is always an integer multiple of 10, and `mround`
returns 0 whenever the amount or the multiple is zero (the code's falsy
guard `not number or not multiple`); in particular `mround(0, 10) = 0`. -/
theorem C8_mround_multiple_of_ten (x y m : ℚ) (h : y = 0 ∨ m = 0) :
    (∃ k : ℤ, mround x 10 = 10 * k) ∧ mround 0 10 = 0 ∧ mround y m = 0 := by
  refine ⟨?_, by decide, ?_⟩
  · by_cases hx : x = 0
    · exact ⟨0, by rw [mround, if_pos (Or.inl hx)]; simp⟩
    · refine ⟨pyRound (x / 10), ?_⟩
      rw [mround, if_neg (by simp [hx])]
      ring
  · rw [mround, if_pos h]

/-- Witness for C8 at amount 7, and zero amount with multiple 10. -/
theorem C8_mround_multiple_of_ten_witness :
    ((0 : ℚ) = 0 ∨ (10 : ℚ) = 0) ∧
    ((∃ k : ℤ, mround 7 10 = 10 * k) ∧ mround 0 10 = 0 ∧ mround 0 10 = 0) :=
  ⟨Or.inl rfl, C8_mround_multiple_of_ten 7 0 10 (Or.inl rfl)⟩

/-- C5: in `both` mode the overall `success` flag equals Form A's success,
independent of Form B's outcome; when Form A succeeds and Form B fails,
`both_success` is false, `unirrig_error` carries Form B's error text, and
the process exits with code 0. -/
theorem C5_both_mode {α β : Type} (fr : Option α) (fe : Option String)
    (ur ur' : Option β) (ue ue' : Option String) (a : α) (msg : String)
    (hfr : fr = some a) (hur : ur = none) (hue : ue = some msg) :
    ((buildBoth fr fe ur ue).success = true ↔ fr.isSome = true) ∧
    (buildBoth fr fe ur ue).success = (buildBoth fr fe ur' ue').success ∧
    (buildBoth fr fe ur ue).both_success = false ∧
    (buildBoth fr fe ur ue).unirrig_error = some msg ∧
    bothExitCode fr = 0 := by
  subst hfr; subst hur; subst hue
  refine ⟨by simp [buildBoth], by simp [buildBoth], by simp [buildBoth],
    by simp [buildBoth], by simp [bothExitCode]⟩

/-- Witness for C5: Form A succeeded, Form B failed with a missing-template
error. -/
theorem C5_both_mode_witness :
    ((buildBoth (some 0) none (none : Option Nat) (some "UNIRRIG template not found")).success = true
        ↔ (some 0).isSome = true) ∧
    (buildBoth (some 0) none (none : Option Nat) (some "UNIRRIG template not found")).success
      = (buildBoth (some 0) none (some (1 : ℕ)) none).success ∧
    (buildBoth (some 0) none (none : Option Nat) (some "UNIRRIG template not found")).both_success = false ∧
    (buildBoth (some 0) none (none : Option Nat) (some "UNIRRIG template not found")).unirrig_error
      = some "UNIRRIG template not found" ∧
    bothExitCode (some 0) = 0 :=
  C5_both_mode (some 0) none none (some (1 : ℕ)) (some "UNIRRIG template not found") none 0
    "UNIRRIG template not found" rfl rfl rfl

/-- C7: the Form B mapper splits the PIN on `-`; with at least 5 segments
it writes segment index 3 to K20 and segment index 4 to K19, and with
fewer than 5 segments it writes neither cell. -/
theorem C7_pin_segments (pin : String) :
    ((splitOnChar '-' pin.data).length < 5 → unirrig_pin_writes pin = []) ∧
    (∀ h : 5 ≤ (splitOnChar '-' pin.data).length,
      unirrig_pin_writes pin =
        [("K20", ⟨(splitOnChar '-' pin.data)[3]⟩),
         ("K19", ⟨(splitOnChar '-' pin.data)[4]⟩)]) := by
  constructor
  · intro h
    unfold unirrig_pin_writes
    rw [dif_neg (by omega)]
  · intro h
    unfold unirrig_pin_writes
    rw [dif_pos h]

/-- Witness for C7: the malformed 3-segment PIN of the spec scenario, and a
well-formed 5-segment PIN. -/
theorem C7_pin_segments_witness :
    ((splitOnChar '-' ("030-01-008" : String).data).length < 5 ∧
      unirrig_pin_writes "030-01-008" = []) ∧
    (5 ≤ (splitOnChar '-' ("030-01-008-12-34" : String).data).length ∧
      unirrig_pin_writes "030-01-008-12-34" = [("K20", "12"), ("K19", "34")]) := by
  refine ⟨⟨by decide, (C7_pin_segments "030-01-008").1 (by decide)⟩, ⟨by decide, ?_⟩⟩
  rw [(C7_pin_segments "030-01-008-12-34").2 (by decide)]
  decide

/-- C3 counterexample: coordinate (1,1) lies inside the merged range of
`c3Sheet`, yet writing 5 there changes the stored value of the requested
coordinate itself (it is the range's anchor), contradicting the claim that
the requested coordinate's own stored value is left unchanged for *every*
coordinate inside a merged range. -/
theorem C3_counterexample :
    (c3Sheet.merged.find? (fun mr => mr.containsCell (1, 1))).isSome = true ∧
    c3Sheet.cells (1, 1) = 0 ∧
    (safe_write_cell c3Sheet (1, 1) 5).cells (1, 1) = 5 ∧
    (safe_write_cell c3Sheet (1, 1) 5).cells (1, 1) ≠ c3Sheet.cells (1, 1) :=
  ⟨by decide, by decide, by decide, by decide⟩

/-- C3 amended: a write whose coordinate lies inside a merged range lands
on that range's (min_row, min_col) anchor cell; the requested coordinate's
own stored value is unchanged *when it is not itself the anchor*; and a
coordinate outside every merged range is written directly. -/
theorem C3_merged_write {V : Type} (s : Sheet V) (p : Nat × Nat) (v : V) :
    (∀ mr, s.merged.find? (fun r => r.containsCell p) = some mr →
      (safe_write_cell s p v).cells (mr.min_row, mr.min_col) = v ∧
      (p ≠ (mr.min_row, mr.min_col) → (safe_write_cell s p v).cells p = s.cells p)) ∧
    (s.merged.find? (fun r => r.containsCell p) = none →
      (safe_write_cell s p v).cells p = v) := by
  constructor
  · intro mr hm
    unfold safe_write_cell
    rw [hm]
    constructor
    · simp [setCell]
    · intro hp
      simp only [setCell]
      rw [if_neg hp]
  · intro hm
    unfold safe_write_cell
    rw [hm]
    simp [setCell]

/-- Witness for C3: on `c3Sheet`, writing at the non-anchor in-range
coordinate (1,2) lands on the anchor (1,1) and leaves (1,2) unchanged, and
writing at the out-of-range coordinate (5,7) lands there directly. -/
theorem C3_merged_write_witness :
    (safe_write_cell c3Sheet (1, 2) 5).cells (1, 1) = 5 ∧
    (safe_write_cell c3Sheet (1, 2) 5).cells (1, 2) = c3Sheet.cells (1, 2) ∧
    (safe_write_cell c3Sheet (5, 7) 9).cells (5, 7) = 9 := by
  have h1 := (C3_merged_write c3Sheet (1, 2) 5).1 ⟨1, 1, 2, 2⟩ (by decide)
  have h2 := (C3_merged_write c3Sheet (5, 7) 9).2 (by decide)
  exact ⟨h1.1, h1.2 (by decide), h2⟩

/-- C4 counterexample: with `previous_av_land` absent the Form A mapping
value for cell H65 is Python `None`, and the Form A write guard passes it
on to the cell writer (`None != ''` holds and `None` is not a string), so
an absent value *is* written in the Form A pass; dually, the Form B
Sheet-1 guard passes the literal string "None" on. -/
theorem C4_counterexample :
    formA_H65_cell none = PyVal.pynone ∧
    formA_write_filter PyVal.pynone = true ∧
    formB_write_filter (PyVal.str "None") = true :=
  ⟨by decide, by decide, by decide⟩

/-- C4 amended: the Form A write loop never writes an empty string nor any
string whose lower-casing is "none"; the Form B Sheet-1 write loop never
writes an empty string nor an absent (`None`) value. -/
theorem C4_write_guards (s : String) (hs : strLower s = "none") :
    formA_write_filter (PyVal.str "") = false ∧
    formA_write_filter (PyVal.str s) = false ∧
    formB_write_filter (PyVal.str "") = false ∧
    formB_write_filter PyVal.pynone = false := by
  refine ⟨by decide, ?_, by decide, by decide⟩
  simp [formA_write_filter, hs]

/-- Witness for C4 at the mixed-case string "NoNe". -/
theorem C4_write_guards_witness :
    strLower "NoNe" = "none" ∧
    (formA_write_filter (PyVal.str "") = false ∧
      formA_write_filter (PyVal.str "NoNe") = false ∧
      formB_write_filter (PyVal.str "") = false ∧
      formB_write_filter PyVal.pynone = false) :=
  ⟨by decide, C4_write_guards "NoNe" (by decide)⟩

/-- C9 counterexample: a `MarketValueAdjustment` with `percent_adjustment`
0 but a non-empty `adj_factor` does *not* produce the same outputs as an
absent entry — the adjustment-factor cell is still written. -/
theorem C9_counterexample :
    formA_slotOut 100 (some ⟨"Corner influence", 0⟩) ≠ formA_slotOut 100 none ∧
    (formA_slotOut 100 (some ⟨"Corner influence", 0⟩)).c = some "Corner influence" ∧
    (formA_slotOut 100 none).c = none :=
  ⟨by decide, by decide, by decide⟩

/-- C9 amended: a zero `percent_adjustment` is indistinguishable from an
absent adjustment entry in the adjusted-value and percentage cells of both
mappers — the base value passes through unmodified and no percentage cell
is written; only the adjustment-factor cell can still tell the two apart. -/
theorem C9_zero_pct_passthrough (mv : ℚ) (af : String) :
    (formA_slotOut mv (some ⟨af, 0⟩)).d = (formA_slotOut mv none).d ∧
    (formA_slotOut mv (some ⟨af, 0⟩)).g = (formA_slotOut mv none).g ∧
    (formA_slotOut mv none).d = none ∧
    (formA_slotOut mv none).g = CellOut.val mv ∧
    formB_adjusted_slot mv 0 = mv ∧
    formB_G50_write [⟨af, 0⟩] = formB_G50_write [] := by
  refine ⟨?_, ?_, ?_, ?_, ?_, ?_⟩ <;>
    simp [formA_slotOut, formA_slotG, formB_adjusted_slot, formB_G50_write]

/-- C2 counterexample: base value 10 at slot 0 with percent adjustment 10:
`mround(10 * 10/100, 10) = 0`, and the Form A mapping stores the
empty-string marker (leaving the cell unwritten) — not the base value 10
that the claimed fallback demands. -/
theorem C2_counterexample :
    mround (10 * ((10 : ℚ) / 100)) 10 = 0 ∧
    formA_adjusted_cell [] [⟨"X", 1, some 10⟩] [⟨"", 10⟩] 0 = some CellOut.empty ∧
    (some CellOut.empty : Option CellOut) ≠ some (CellOut.val 10) :=
  ⟨by decide, by decide, by decide⟩

/-- C2 amended: for every consolidated slot i with base value mv, if a
percent adjustment pct is present the adjusted-value cell receives
`mround(mv * pct/100, 10)` when that is nonzero and is left unwritten (the
empty marker) when it is exactly zero; with no percent adjustment the cell
receives mv unmodified. -/
theorem C2_formA_adjusted (land : List LandItem) (impr : List ImprItem)
    (mvs : List MVItem) (i : Nat) (mv pct : ℚ)
    (hmv : (formA_consol land impr).get? i = some mv)
    (hpct : ((mvs.get? i).map MVItem.percent_adjustment).getD 0 = pct) :
    formA_adjusted_cell land impr mvs i =
      some (if pct = 0 then CellOut.val mv
            else if mround (mv * (pct / 100)) 10 = 0 then CellOut.empty
            else CellOut.val (mround (mv * (pct / 100)) 10)) := by
  unfold formA_adjusted_cell
  rw [hmv]
  dsimp only
  rw [hpct]
  unfold formA_slotG
  by_cases hp : pct = 0
  · simp [hp]
  · by_cases hz : mround (mv * (pct / 100)) 10 = 0
    · simp [hp, hz]
    · simp [hp, hz]

/-- Witness for C2 (the spec's end-to-end scenario): one COMMERCIAL C-1
land entry of area 2 gives base 2800; a 50 percent adjustment yields the
adjusted value 1400. -/
theorem C2_formA_adjusted_witness :
    (formA_consol [⟨"COMMERCIAL", "C-1", 2⟩] []).get? 0 = some 2800 ∧
    ((List.get? [(⟨"", 50⟩ : MVItem)] 0).map MVItem.percent_adjustment).getD 0 = 50 ∧
    formA_adjusted_cell [⟨"COMMERCIAL", "C-1", 2⟩] [] [⟨"", 50⟩] 0 = some (CellOut.val 1400) := by
  refine ⟨by decide, by decide, ?_⟩
  rw [C2_formA_adjusted [⟨"COMMERCIAL", "C-1", 2⟩] [] [⟨"", 50⟩] 0 2800 50 (by decide) (by decide)]
  decide

end FAAS

namespace FAAS

/-- `rowGet` misses every row key below the start row of a `gRows` run
(the run only produces keys `≥ r0`). -/
theorem rowGet_gRows_of_lt {α : Type} (f : α → Option ℚ) (l : List α) :
    ∀ r0 r : Nat, r < r0 → rowGet (gRows f r0 l) r = none := by
  induction l with
  | nil => intro r0 r _; rfl
  | cons a t ih =>
      intro r0 r hr
      unfold gRows
      cases hfa : f a with
      | none => exact ih (r0 + 1) r (by omega)
      | some g =>
          unfold rowGet
          rw [if_neg (by omega)]
          exact ih (r0 + 1) r (by omega)

/-- Reading the `G` cells back row by row (`cell_mapping.get(row, 0)`,
keep-if-truthy) recovers exactly the per-item market values with the falsy
ones skipped. -/
theorem formA_mv_read_gRows {α : Type} (f : α → Option ℚ) (l : List α) :
    ∀ r0 : Nat,
      formA_mv_read (gRows f r0 l) ((List.range l.length).map (fun i => r0 + i)) =
        (l.map (fun a => (f a).getD 0)).filter (fun q => q ≠ 0) := by
  induction l with
  | nil => intro r0; rfl
  | cons a t ih =>
      intro r0
      have hrange : (List.range (a :: t).length).map (fun i => r0 + i)
          = r0 :: (List.range t.length).map (fun i => (r0 + 1) + i) := by
        rw [List.length_cons, List.range_succ_eq_map, List.map_cons, List.map_map]
        refine congrArg₂ List.cons (by omega) ?_
        exact List.map_congr_left (fun i _ => by simp [Function.comp]; omega)
      rw [hrange]
      unfold gRows
      cases hfa : f a with
      | some g =>
          unfold formA_mv_read
          rw [List.filterMap_cons]
          have hhead : rowGet ((r0, g) :: gRows f (r0 + 1) t) r0 = some g := by
            unfold rowGet; rw [if_pos rfl]
          have htail : ((List.range t.length).map (fun i => (r0 + 1) + i)).filterMap
                (fun r => if (rowGet ((r0, g) :: gRows f (r0 + 1) t) r).getD 0 ≠ 0
                          then some ((rowGet ((r0, g) :: gRows f (r0 + 1) t) r).getD 0) else none)
              = ((List.range t.length).map (fun i => (r0 + 1) + i)).filterMap
                (fun r => if (rowGet (gRows f (r0 + 1) t) r).getD 0 ≠ 0
                          then some ((rowGet (gRows f (r0 + 1) t) r).getD 0) else none) := by
            refine List.filterMap_congr (fun r hr => ?_)
            obtain ⟨i, _, rfl⟩ := List.mem_map.mp hr
            have hne : rowGet ((r0, g) :: gRows f (r0 + 1) t) (r0 + 1 + i)
                = rowGet (gRows f (r0 + 1) t) (r0 + 1 + i) := by
              simp only [rowGet]
              rw [if_neg (by omega)]
            rw [hne]
          have hres := ih (r0 + 1)
          unfold formA_mv_read at hres
          rw [List.map_cons, List.filter_cons, hfa]
          dsimp only [hhead, Option.getD_some]
          rw [hhead]
          dsimp only [Option.getD_some]
          by_cases hg : g = 0
          · rw [if_neg (by simpa using hg), if_neg (by simpa using hg)]
            rw [htail, hres]
          · rw [if_pos (by simpa using hg), if_pos (by simpa using hg)]
            rw [htail, hres]
      | none =>
          unfold formA_mv_read
          rw [List.filterMap_cons]
          have hhead : rowGet (gRows f (r0 + 1) t) r0 = none :=
            rowGet_gRows_of_lt f t (r0 + 1) r0 (by omega)
          rw [hhead]
          dsimp only [Option.getD_none]
          rw [if_neg (by simp)]
          have hres := ih (r0 + 1)
          unfold formA_mv_read at hres
          rw [List.map_cons, List.filter_cons, hfa]
          dsimp only [Option.getD_none]
          rw [if_neg (by simp)]
          exact hres

/-- C6: the consolidated sequence always has at most 4 entries, and is the
land market values followed by the improvement market values, in original
order, with falsy (zero/absent) entries skipped, truncated to the first 4
— over the at-most-4 consumed entries per list in Form A, and over all
entries in Form B's base list. -/
theorem C6_consolidation (land : List LandItem) (impr : List ImprItem) :
    (formA_consol land impr).length ≤ 4 ∧
    (formB_consol land impr).length ≤ 4 ∧
    formA_consol land impr =
      ((((land.take 4).map (fun it => (formA_landG it).getD 0)).filter (fun q => q ≠ 0))
        ++ (((impr.take 4).map (fun it => (formA_imprG it).getD 0)).filter (fun q => q ≠ 0))).take 4 ∧
    formB_consol land impr =
      (((land.map formB_landMV).filter (fun q => q ≠ 0))
        ++ ((impr.map formB_imprMV).filter (fun q => q ≠ 0))).take 4 := by
  refine ⟨List.length_take_le _ _, List.length_take_le _ _, ?_, rfl⟩
  unfold formA_consol formA_mv_sources
  rw [show min 4 land.length = (land.take 4).length from (List.length_take 4 land).symm,
      show min 4 impr.length = (impr.take 4).length from (List.length_take 4 impr).symm,
      formA_mv_read_gRows, formA_mv_read_gRows]

/-- C1: at the failing record — no land entries, one improvement whose
product class "X" is not in the unit-value table, with quantity 1 and raw
unit value 5 — Form A consolidates the unrounded improvement product
`1 * 5 = 5`, while the Form B base computation *rounds* it
(`mround(5, 10) = 0`) and skips the resulting zero, so the two mappers
disagree although the Form B code comments that its computation
"MATCHES FAAS G36-G39". -/
theorem C1_divergence :
    formA_consol [] [⟨"X", 1, some 5⟩] = [5] ∧
    formB_consol [] [⟨"X", 1, some 5⟩] = [] ∧
    mround 5 10 = 0 :=
  ⟨by decide, by decide, by decide⟩

/-- For land entries with non-negative area, what Form A stores in the `G`
cell (read back with default 0) is exactly Form B's per-entry land market
value. -/
theorem formA_landG_getD_eq (it : LandItem) (h : 0 ≤ it.area) :
    (formA_landG it).getD 0 = formB_landMV it := by
  unfold formA_landG formB_landMV
  cases hc : calculate_land_unit_value it.classification it.sub_class with
  | none => simp
  | some uv =>
      dsimp only [Option.getD_some]
      by_cases huv : uv = 0
      · subst huv
        rw [if_neg (by simp), if_neg (by simp)]
        rfl
      · by_cases harea : it.area = 0
        · rw [if_neg (by simp [harea]), if_neg (by simp [harea])]
          rfl
        · have hpos : it.area > 0 := lt_of_le_of_ne h (Ne.symm harea)
          rw [if_pos ⟨huv, hpos⟩, if_pos ⟨harea, huv⟩]
          rfl

/-- For improvement entries with non-negative quantity whose market value
`qty * unit_value` is already a fixpoint of the rounding rule, what Form A
stores in the `G` cell is exactly Form B's per-entry improvement market
value. -/
theorem formA_imprG_getD_eq (it : ImprItem) (hq : 0 ≤ it.improvement_qty)
    (hm : mround ((it.improvement_qty : ℚ) * (formA_imprUV it).getD 0) 10
            = (it.improvement_qty : ℚ) * (formA_imprUV it).getD 0) :
    (formA_imprG it).getD 0 = formB_imprMV it := by
  unfold formA_imprG formB_imprMV
  cases hu : formA_imprUV it with
  | none => simp
  | some v =>
      rw [hu] at hm
      dsimp only [Option.getD_some] at hm ⊢
      by_cases hv : v = 0
      · subst hv
        rw [if_neg (by simp), if_neg (by simp)]
        rfl
      · by_cases hq0 : it.improvement_qty = 0
        · rw [if_neg (by simp [hq0]), if_neg (by simp [hq0])]
          rfl
        · have hpos : it.improvement_qty > 0 := lt_of_le_of_ne hq (Ne.symm hq0)
          rw [if_pos ⟨hv, hpos⟩, if_pos ⟨hq0, hv⟩, hm]
          rfl

/-- On records within the templates' consumption limits (at most 4 land
and at most 4 improvement entries, with non-negative areas and quantities)
whose improvement market values are already multiples of 10 — as holds for
every tabulated product class — the Form B base sequence does agree with
Form A's consolidated sequence.  This bounds the divergence exhibited by
`C1_divergence`. -/
theorem formB_base_matches_formA (land : List LandItem) (impr : List ImprItem)
    (hl : land.length ≤ 4) (hi : impr.length ≤ 4)
    (ha : ∀ it ∈ land, 0 ≤ it.area)
    (hq : ∀ it ∈ impr, 0 ≤ it.improvement_qty)
    (hm : ∀ it ∈ impr, mround ((it.improvement_qty : ℚ) * (formA_imprUV it).getD 0) 10
            = (it.improvement_qty : ℚ) * (formA_imprUV it).getD 0) :
    formB_consol land impr = formA_consol land impr := by
  unfold formB_consol formA_consol formB_base_mvs formA_mv_sources
  rw [show min 4 land.length = (land.take 4).length from (List.length_take 4 land).symm,
      show min 4 impr.length = (impr.take 4).length from (List.length_take 4 impr).symm,
      formA_mv_read_gRows, formA_mv_read_gRows,
      List.take_of_length_le hl, List.take_of_length_le hi]
  have hland : land.map formB_landMV = land.map (fun it => (formA_landG it).getD 0) :=
    List.map_congr_left (fun it hit => (formA_landG_getD_eq it (ha it hit)).symm)
  have himpr : impr.map formB_imprMV = impr.map (fun it => (formA_imprG it).getD 0) :=
    List.map_congr_left (fun it hit => (formA_imprG_getD_eq it (hq it hit) (hm it hit)).symm)
  rw [hland, himpr]

end FAAS

namespace FAAS

/-- Equation: one replacement pass on a leading double underscore. -/
theorem replaceDoubles_eq_pos (rest : List Char) :
    replaceDoubles ('_' :: '_' :: rest) = '_' :: replaceDoubles rest := by
  simp [replaceDoubles]

/-- Equation: one replacement pass slides by one when the window is not a
double underscore. -/
theorem replaceDoubles_eq_neg (c d : Char) (rest : List Char) (h : ¬(c = '_' ∧ d = '_')) :
    replaceDoubles (c :: d :: rest) = c :: replaceDoubles (d :: rest) := by
  simp only [replaceDoubles]
  rw [if_neg h]

/-- One `replace('__', '_')` pass never lengthens the text. -/
theorem replaceDoubles_length_le (s : List Char) :
    (replaceDoubles s).length ≤ s.length := by
  induction s using replaceDoubles.induct with
  | case1 => simp [replaceDoubles]
  | case2 c => simp [replaceDoubles]
  | case3 c d rest h ih =>
      obtain ⟨hc, hd⟩ := h
      subst hc; subst hd
      rw [replaceDoubles_eq_pos]
      simp only [List.length_cons]
      omega
  | case4 c d rest h ih =>
      rw [replaceDoubles_eq_neg c d rest h]
      simp only [List.length_cons] at ih ⊢
      omega

/-- A `replace('__', '_')` pass that finds a double strictly shortens the
text (hence the `while` loop of `clean_filename` terminates within
`length`-many passes). -/
theorem replaceDoubles_length_lt (s : List Char) (h : hasDouble s = true) :
    (replaceDoubles s).length < s.length := by
  induction s using replaceDoubles.induct with
  | case1 => simp [hasDouble] at h
  | case2 c => simp [hasDouble] at h
  | case3 c d rest hcd ih =>
      obtain ⟨hc, hd⟩ := hcd
      subst hc; subst hd
      rw [replaceDoubles_eq_pos]
      have := replaceDoubles_length_le rest
      simp only [List.length_cons]
      omega
  | case4 c d rest hcd ih =>
      simp only [hasDouble, Bool.or_eq_true, Bool.and_eq_true, decide_eq_true_eq] at h
      rcases h with h | h
      · exact absurd h hcd
      · rw [replaceDoubles_eq_neg c d rest hcd]
        have := ih h
        simp only [List.length_cons] at this ⊢
        omega

/-- One `replace('__', '_')` pass only deletes characters. -/
theorem replaceDoubles_sublist (s : List Char) :
    (replaceDoubles s).Sublist s := by
  induction s using replaceDoubles.induct with
  | case1 => simp [replaceDoubles]
  | case2 c => simp [replaceDoubles]
  | case3 c d rest h ih =>
      obtain ⟨hc, hd⟩ := h
      subst hc; subst hd
      rw [replaceDoubles_eq_pos]
      exact List.Sublist.cons₂ _ (List.Sublist.cons _ ih)
  | case4 c d rest h ih =>
      rw [replaceDoubles_eq_neg c d rest h]
      exact List.Sublist.cons₂ _ ih

/-- One `replace('__', '_')` pass deletes only underscores: the
non-underscore content is untouched. -/
theorem replaceDoubles_filter (s : List Char) :
    (replaceDoubles s).filter nonUnderscore = s.filter nonUnderscore := by
  induction s using replaceDoubles.induct with
  | case1 => rfl
  | case2 c => rfl
  | case3 c d rest h ih =>
      obtain ⟨hc, hd⟩ := h
      subst hc; subst hd
      rw [replaceDoubles_eq_pos, List.filter_cons, List.filter_cons, List.filter_cons,
          show nonUnderscore '_' = false from rfl]
      simpa using ih
  | case4 c d rest h ih =>
      rw [replaceDoubles_eq_neg c d rest h, List.filter_cons, List.filter_cons, ih]

/-- The collapse loop only deletes characters. -/
theorem collapseGo_sublist : ∀ (n : Nat) (s : List Char), (collapseGo n s).Sublist s := by
  intro n
  induction n with
  | zero => intro s; exact List.Sublist.refl s
  | succ n ih =>
      intro s
      unfold collapseGo
      by_cases hd : hasDouble s = true
      · rw [if_pos hd]
        exact (ih (replaceDoubles s)).trans (replaceDoubles_sublist s)
      · rw [if_neg hd]

/-- The collapse loop preserves the non-underscore content. -/
theorem collapseGo_filter : ∀ (n : Nat) (s : List Char),
    (collapseGo n s).filter nonUnderscore = s.filter nonUnderscore := by
  intro n
  induction n with
  | zero => intro s; rfl
  | succ n ih =>
      intro s
      unfold collapseGo
      by_cases hd : hasDouble s = true
      · rw [if_pos hd, ih (replaceDoubles s), replaceDoubles_filter]
      · rw [if_neg hd]

/-- With fuel at least the length of the text, the collapse loop reaches a
fixpoint with no adjacent underscores left. -/
theorem collapseGo_noDouble : ∀ (n : Nat) (s : List Char),
    s.length ≤ n → hasDouble (collapseGo n s) = false := by
  intro n
  induction n with
  | zero =>
      intro s hs
      have hnil : s = [] := List.length_eq_zero.mp (Nat.le_zero.mp hs)
      subst hnil; rfl
  | succ n ih =>
      intro s hs
      unfold collapseGo
      by_cases hd : hasDouble s = true
      · rw [if_pos hd]
        refine ih _ ?_
        have := replaceDoubles_length_lt s hd
        omega
      · rw [if_neg hd]
        simpa using hd

/-- `dropWhile` removes an initial segment: the remainder is a suffix. -/
theorem exists_append_dropWhile (p : Char → Bool) (l : List Char) :
    ∃ v, v ++ l.dropWhile p = l := by
  induction l with
  | nil => exact ⟨[], rfl⟩
  | cons a t ih =>
      by_cases hp : p a = true
      · obtain ⟨v, hv⟩ := ih
        refine ⟨a :: v, ?_⟩
        rw [List.dropWhile_cons, if_pos hp, List.cons_append, hv]
      · refine ⟨[], ?_⟩
        rw [List.dropWhile_cons, if_neg hp, List.nil_append]

/-- After dropping leading underscores, the head (if any) is not an
underscore. -/
theorem head_dropWhile_ne (l : List Char) :
    (l.dropWhile (fun c => c = '_')).head? ≠ some '_' := by
  induction l with
  | nil => simp
  | cons a t ih =>
      by_cases ha : a = '_'
      · rw [List.dropWhile_cons, if_pos (by simp [ha])]
        exact ih
      · rw [List.dropWhile_cons, if_neg (by simp [ha])]
        simp [ha]

/-- Dropping leading underscores preserves the non-underscore content. -/
theorem filter_dropWhile_underscore (l : List Char) :
    (l.dropWhile (fun c => c = '_')).filter nonUnderscore = l.filter nonUnderscore := by
  induction l with
  | nil => rfl
  | cons a t ih =>
      by_cases ha : a = '_'
      · subst ha
        rw [List.dropWhile_cons, if_pos (by simp), ih, List.filter_cons,
            show nonUnderscore '_' = false from rfl]
        simp
      · rw [List.dropWhile_cons, if_neg (by simp [ha])]

/-- A text without adjacent underscores has none in any front segment. -/
theorem hasDouble_append_left (r u : List Char) :
    hasDouble (r ++ u) = false → hasDouble r = false := by
  induction r using hasDouble.induct with
  | case1 => intro _; rfl
  | case2 c => intro _; rfl
  | case3 c d rest ih =>
      intro h
      simp only [List.cons_append] at h
      simp only [hasDouble, Bool.or_eq_false_iff] at h ⊢
      refine ⟨h.1, ?_⟩
      apply ih
      rw [List.cons_append]
      exact h.2

/-- A text without adjacent underscores has none in any tail segment. -/
theorem hasDouble_append_right (v s : List Char) :
    hasDouble (v ++ s) = false → hasDouble s = false := by
  induction v with
  | nil => intro h; exact h
  | cons a vt ih =>
      intro h
      apply ih
      rw [List.cons_append] at h
      cases hv : vt ++ s with
      | nil => rfl
      | cons b w =>
          rw [hv] at h
          simp only [hasDouble, Bool.or_eq_false_iff] at h
          exact h.2

/-- `strip('_')` removes an outer layer only: the stripped text, extended
by some trailing run, recovers the leading-stripped text. -/
theorem exists_stripUnderscores_append (s : List Char) :
    ∃ u, stripUnderscores s ++ u = s.dropWhile (fun c => c = '_') := by
  obtain ⟨v, hv⟩ := exists_append_dropWhile (fun c => decide (c = '_'))
      (s.dropWhile (fun c => c = '_')).reverse
  refine ⟨v.reverse, ?_⟩
  have h2 := congrArg List.reverse hv
  rw [List.reverse_append, List.reverse_reverse] at h2
  exact h2

/-- A front segment of a text whose head is not an underscore cannot start
with an underscore either. -/
theorem head_append_ne (r u t : List Char) (h : r ++ u = t)
    (ht : t.head? ≠ some '_') : r.head? ≠ some '_' := by
  cases r with
  | nil => simp
  | cons a rt =>
      subst h
      simpa using ht

/-- The full sanitisation tail of `clean_filename` (collapse doubles, strip
outer underscores), characterised: the result deletes only underscores
(sublist that preserves the non-underscore content), has no adjacent
underscores, and neither starts nor ends with an underscore. -/
theorem sanitize_spec (m : List Char) :
    (stripUnderscores (collapseUnderscores m)).Sublist m ∧
    (stripUnderscores (collapseUnderscores m)).filter nonUnderscore = m.filter nonUnderscore ∧
    hasDouble (stripUnderscores (collapseUnderscores m)) = false ∧
    (stripUnderscores (collapseUnderscores m)).head? ≠ some '_' ∧
    (stripUnderscores (collapseUnderscores m)).getLast? ≠ some '_' := by
  obtain ⟨v, hv⟩ := exists_append_dropWhile (fun c => decide (c = '_')) (collapseUnderscores m)
  obtain ⟨u, hu⟩ := exists_stripUnderscores_append (collapseUnderscores m)
  have hcu_nd : hasDouble (collapseUnderscores m) = false :=
    collapseGo_noDouble m.length m (le_refl _)
  have ht_nd : hasDouble ((collapseUnderscores m).dropWhile (fun c => c = '_')) = false :=
    hasDouble_append_right v _ (by rw [hv]; exact hcu_nd)
  have hr_nd : hasDouble (stripUnderscores (collapseUnderscores m)) = false :=
    hasDouble_append_left _ u (by rw [hu]; exact ht_nd)
  refine ⟨?_, ?_, hr_nd, ?_, ?_⟩
  · have h1 : (stripUnderscores (collapseUnderscores m)).Sublist
        ((collapseUnderscores m).dropWhile (fun c => c = '_')) := by
      rw [← hu]
      exact List.sublist_append_left _ u
    have h2 : ((collapseUnderscores m).dropWhile (fun c => c = '_')).Sublist
        (collapseUnderscores m) := by
      conv_rhs => rw [← hv]
      exact List.sublist_append_right v _
    exact (h1.trans h2).trans (collapseGo_sublist m.length m)
  · unfold stripUnderscores
    rw [List.filter_reverse, filter_dropWhile_underscore, List.filter_reverse,
        List.reverse_reverse, filter_dropWhile_underscore]
    exact collapseGo_filter m.length m
  · exact head_append_ne _ u _ hu (head_dropWhile_ne (collapseUnderscores m))
  · unfold stripUnderscores
    rw [List.getLast?_reverse]
    exact head_dropWhile_ne ((collapseUnderscores m).dropWhile (fun c => c = '_')).reverse

/-- C10: for every non-empty input, `clean_filename` returns the
blacklist-substituted input with consecutive underscores collapsed and
outer underscores stripped — the result deletes only underscores from the
substituted input, keeps all non-underscore characters in order, has no
adjacent underscores, and neither starts nor ends with one; the
all-blacklist input "." yields the empty string, and the "Unknown" default
applies exactly to the empty input. -/
theorem C10_clean_filename (s : String) (h : s ≠ "") :
    ((clean_filename s).data).Sublist (applyBlacklist s.data) ∧
    ((clean_filename s).data).filter nonUnderscore
      = (applyBlacklist s.data).filter nonUnderscore ∧
    hasDouble ((clean_filename s).data) = false ∧
    ((clean_filename s).data).head? ≠ some '_' ∧
    ((clean_filename s).data).getLast? ≠ some '_' ∧
    clean_filename "." = "" ∧
    clean_filename "" = "Unknown" := by
  have hdata : (clean_filename s).data
      = stripUnderscores (collapseUnderscores (applyBlacklist s.data)) := by
    unfold clean_filename
    rw [if_neg h]
  have hs := sanitize_spec (applyBlacklist s.data)
  rw [hdata]
  exact ⟨hs.1, hs.2.1, hs.2.2.1, hs.2.2.2.1, hs.2.2.2.2, by decide, by decide⟩

/-- Witness for C10 at the non-empty input "Juan D. Cruz". -/
theorem C10_clean_filename_witness :
    ("Juan D. Cruz" : String) ≠ "" ∧
    (((clean_filename "Juan D. Cruz").data).Sublist (applyBlacklist ("Juan D. Cruz" : String).data) ∧
      ((clean_filename "Juan D. Cruz").data).filter nonUnderscore
        = (applyBlacklist ("Juan D. Cruz" : String).data).filter nonUnderscore ∧
      hasDouble ((clean_filename "Juan D. Cruz").data) = false ∧
      ((clean_filename "Juan D. Cruz").data).head? ≠ some '_' ∧
      ((clean_filename "Juan D. Cruz").data).getLast? ≠ some '_' ∧
      clean_filename "." = "" ∧
      clean_filename "" = "Unknown") :=
  ⟨by decide, C10_clean_filename "Juan D. Cruz" (by decide)⟩

end FAAS
